import Mathlib

/-!
Shallow embedding of `src/ditty.c`, a probe for the dirty-pipe page-cache
overwrite (CVE-2022-0847).  Syscall outcomes that depend on the live kernel
(open, fstat, splice, write, and whether the kernel actually merges the
write into the page cache) are supplied by an explicit environment record;
everything else follows the C source line by line.  The single target path
is modelled as one mutable slot (`SysState.artifact`), and the number of
currently-open file descriptors is tracked in `SysState.openFds`.
-/

namespace Ditty

/-- PAGE_SIZE from sys/user.h, with the 4096 fallback used by the source. -/
def PAGE_SIZE : Nat := 4096

/-- The fixed artifact content, global `test_string` in the source. -/
def test_string : String := "Hello World!\n"

/-- The fixed artifact path, global `test_file` in the source. -/
def test_file : String := "/tmp/testfile.txt"

/-- The offset hardcoded in `main` (`loff_t offset = 6`). -/
def probe_offset : Nat := 6

/-- The payload hardcoded in `main` (`const char *const data = "mammy"`). -/
def probe_data : List Char := "mammy".data

/-- One tag per distinct failure diagnostic printed by `check_dirty_pipe`. -/
inductive WriteError where
  | pageBoundaryOffset
  | crossesPageBoundary
  | openFailed
  | statFailed
  | offsetOutOfRange
  | wouldGrowFile
  | spliceFailed
  | shortSplice
  | writeFailed
  | shortWrite
deriving DecidableEq, Repr

/-- Kernel-dependent outcomes of the syscalls issued by `check_dirty_pipe`. -/
structure CdpEnv where
  /-- whether `open(path, O_RDONLY)` succeeds, given the file exists -/
  openOk : Bool
  /-- whether `fstat` succeeds -/
  statOk : Bool
  /-- return value of the 1-byte `splice` call -/
  spliceRes : Int
  /-- return value of the payload `write` call -/
  writeRes : Int
  /-- whether the kernel has the bug: the write merges into the page cache -/
  vulnerable : Bool
deriving DecidableEq, Repr

/-- Observable OS state touched by the program: the content of the single
target path (`none` = file absent) and how many descriptors are open. -/
structure SysState where
  artifact : Option (List Char)
  openFds : Nat
deriving DecidableEq, Repr

/-- Replace the bytes of `content` at `[off, off + repl.length)` by `repl`. -/
def overwriteAt (content : List Char) (off : Nat) (repl : List Char) : List Char :=
  content.take off ++ repl ++ content.drop (off + repl.length)

/-- Chunk sizes produced by the fill (and drain) loop of `prepare_pipe`:
`n = r > sizeof(buffer) ? sizeof(buffer) : r`, then `r -= n`. -/
def chunkSizes : Nat → List Nat
  | 0 => []
  | r + 1 => min (r + 1) 4096 :: chunkSizes (r + 1 - min (r + 1) 4096)
decreasing_by omega

/-- The fill loop of `prepare_pipe`: `r` bytes left to write, `level` bytes
currently in the pipe; each `write(p[1], buffer, n)` raises the level. -/
def fillLoop : Nat → Nat → Nat
  | 0, level => level
  | r + 1, level => fillLoop (r + 1 - min (r + 1) 4096) (level + min (r + 1) 4096)
decreasing_by omega

/-- The drain loop of `prepare_pipe`: each `read(p[0], buffer, n)` lowers the
pipe level. -/
def drainLoop : Nat → Nat → Nat
  | 0, level => level
  | r + 1, level => drainLoop (r + 1 - min (r + 1) 4096) (level - min (r + 1) 4096)
decreasing_by omega

/-- Byte traffic of one `prepare_pipe(p)` call on a pipe whose capacity is
`capacity` (the `fcntl(p[1], F_GETPIPE_SZ)` result). -/
structure PipeModel where
  writeChunks : List Nat
  readChunks : List Nat
  finalLevel : Nat
deriving DecidableEq, Repr

/-- Model of `prepare_pipe`: fill the pipe completely in chunks, then drain
it with the same chunk sequence. -/
def prepare_pipe (capacity : Nat) : PipeModel :=
  { writeChunks := chunkSizes capacity
    readChunks := chunkSizes capacity
    finalLevel := drainLoop capacity (fillLoop capacity 0) }

/-- `check_dirty_pipe(path, offset, data)` from the source, line by line.
The pipe creation of `prepare_pipe` contributes two descriptors; its byte
traffic is modelled separately by `prepare_pipe` above, and its kernel-side
effect (stale mergeable flags) is summarised by `CdpEnv.vulnerable`. -/
def check_dirty_pipe (env : CdpEnv) (st : SysState) (offset : Nat)
    (data : List Char) : Except WriteError Unit × SysState :=
  let data_size := data.length
  if offset % PAGE_SIZE = 0 then
    (Except.error WriteError.pageBoundaryOffset, st)
  else
    let next_page := (offset ||| (PAGE_SIZE - 1)) + 1
    let end_offset := offset + data_size
    if end_offset > next_page then
      (Except.error WriteError.crossesPageBoundary, st)
    else
      match st.artifact with
      | none => (Except.error WriteError.openFailed, st)
      | some content =>
        if ¬ env.openOk then (Except.error WriteError.openFailed, st)
        else
          let st1 : SysState := { st with openFds := st.openFds + 1 }
          if ¬ env.statOk then (Except.error WriteError.statFailed, st1)
          else
            let size := content.length
            if offset > size then
              (Except.error WriteError.offsetOutOfRange, st1)
            else if end_offset > size then
              (Except.error WriteError.wouldGrowFile, st1)
            else
              let st2 : SysState := { st1 with openFds := st1.openFds + 2 }
              if env.spliceRes < 0 then
                (Except.error WriteError.spliceFailed, st2)
              else if env.spliceRes = 0 then
                (Except.error WriteError.shortSplice, st2)
              else
                if env.writeRes < 0 then
                  (Except.error WriteError.writeFailed, st2)
                else
                  let nbytes := env.writeRes.toNat
                  let merged := overwriteAt content offset (data.take nbytes)
                  let st3 : SysState :=
                    if env.vulnerable then { st2 with artifact := some merged }
                    else st2
                  if nbytes < data_size then
                    (Except.error WriteError.shortWrite, st3)
                  else
                    (Except.ok (), st3)

/-- Environment for a whole `main` run. -/
structure Env where
  /-- filesystem content of the target path before the run -/
  preArtifact : Option (List Char)
  /-- whether `open(path, O_CREAT|O_WRONLY, 0444)` succeeds -/
  createOpenOk : Bool
  /-- whether the `write` in `create_test_file` succeeds -/
  createWriteOk : Bool
  cdp : CdpEnv
  /-- whether the re-open in `check_file_content` succeeds, given the file exists -/
  reopenOk : Bool
  /-- whether the `read(fd, buf, 255)` in `check_file_content` succeeds -/
  readOk : Bool
deriving DecidableEq, Repr

/-- `create_test_file(path)`: open with O_CREAT (no O_TRUNC), write the test
string at position 0, close only on the success path.  Returns the C `int`. -/
def create_test_file (env : Env) (st : SysState) : Int × SysState :=
  if ¬ env.createOpenOk then (1, st)
  else
    let old := st.artifact.getD []
    let st1 : SysState := { artifact := some old, openFds := st.openFds + 1 }
    if ¬ env.createWriteOk then (1, st1)
    else
      let st2 : SysState :=
        { st1 with artifact := some (test_string.data ++ old.drop test_string.length) }
      (0, { st2 with openFds := st2.openFds - 1 })

/-- `check_file_content(path)`: reopen read-only, read up to 255 bytes into
`buf` (the C `int r` is -1 when the read fails, else the byte count), close,
then return 0 iff `r` equals `strlen(test_string)` and the bytes read match
the test string; 1 otherwise (so also when the read failed); -1 if the open
failed. -/
def check_file_content (env : Env) (st : SysState) : Int × SysState :=
  match st.artifact with
  | none => (-1, st)
  | some content =>
    if ¬ env.reopenOk then (-1, st)
    else
      let st1 : SysState := { st with openFds := st.openFds + 1 }
      let r : Int := if env.readOk then ((min content.length 255 : Nat) : Int) else -1
      let st2 : SysState := { st1 with openFds := st1.openFds - 1 }
      if r = (test_string.length : Int) ∧
          content.take test_string.length = test_string.data
      then (0, st2)
      else (1, st2)

/-- Observable outcome of one `main` run: the process exit status, the line
printed to stdout (if any), and the final OS state. -/
structure MainResult where
  exitCode : Int
  stdoutLine : Option String
  final : SysState
deriving DecidableEq, Repr

/-- Initial OS state of a run. -/
def initSt (env : Env) : SysState :=
  { artifact := env.preArtifact, openFds := 0 }

/-- `main` from the source.  `argv` is accepted and, as in the source, never
read.  Note the two guards compare a 0/1 return value with `< 0`, exactly as
the C does. -/
def main_run (env : Env) (_argv : List String) : MainResult :=
  let c1 := create_test_file env (initSt env)
  if c1.1 < 0 then { exitCode := 1, stdoutLine := none, final := c1.2 }
  else
    let probe := check_dirty_pipe env.cdp c1.2 probe_offset probe_data
    let c2 : Int := match probe.1 with
      | Except.ok _ => 0
      | Except.error _ => 1
    if c2 < 0 then { exitCode := 1, stdoutLine := none, final := probe.2 }
    else
      let c3 := check_file_content env probe.2
      if c3.1 = -1 then { exitCode := 1, stdoutLine := none, final := c3.2 }
      else
        let line : Option String :=
          if c3.1 = 0 then some "You are safe"
          else if c3.1 = 1 then some "VULNERABLE!"
          else none
        { exitCode := 0, stdoutLine := line,
          final := { c3.2 with artifact := none } }

/-- The tri-state verdict of the spec, recovered from a run's stdout. -/
inductive ProbeVerdict where
  | Safe
  | Vulnerable
  | Error
deriving DecidableEq, Repr

/-- A run's verdict: `Safe` / `Vulnerable` if the corresponding line was
printed, `Error` otherwise. -/
def verdictOf (r : MainResult) : ProbeVerdict :=
  if r.stdoutLine = some "You are safe" then ProbeVerdict.Safe
  else if r.stdoutLine = some "VULNERABLE!" then ProbeVerdict.Vulnerable
  else ProbeVerdict.Error

/-- The spec's `nextPageBoundary`: `offset` rounded up to a multiple of
`PAGE_SIZE`. -/
def nextPageBoundary (offset : Nat) : Nat :=
  ((offset + PAGE_SIZE - 1) / PAGE_SIZE) * PAGE_SIZE

/-- `true` iff the result shows the run got past all six validations, i.e.
it is a success or one of the transfer-stage errors. -/
def passedValidation : Except WriteError Unit → Bool
  | Except.ok _ => true
  | Except.error WriteError.spliceFailed => true
  | Except.error WriteError.shortSplice => true
  | Except.error WriteError.writeFailed => true
  | Except.error WriteError.shortWrite => true
  | Except.error _ => false

/-- An environment in which every syscall succeeds and the kernel is not
vulnerable. -/
def cdpAllOk : CdpEnv :=
  { openOk := true, statOk := true, spliceRes := 1, writeRes := 5,
    vulnerable := false }

/-- A state holding the freshly created 13-byte artifact. -/
def stTest : SysState :=
  { artifact := some test_string.data, openFds := 0 }

/-- A run environment in which everything succeeds on a safe kernel. -/
def envSafeRun : Env :=
  { preArtifact := none, createOpenOk := true, createWriteOk := true,
    cdp := cdpAllOk, reopenOk := true, readOk := true }

/-- Like `envSafeRun`, but the `read` in `check_file_content` fails. -/
def envReadErr : Env :=
  { envSafeRun with readOk := false }

/-- Like `envSafeRun`, but the target path already holds 14 bytes: the test
string followed by one extra byte. -/
def envExtraByte : Env :=
  { envSafeRun with preArtifact := some (test_string.data ++ [ 'X' ]) }

/-- Like `envSafeRun`, but the read-only open inside `check_dirty_pipe`
fails, so the whole write sequence fails. -/
def envProbeFail : Env :=
  { envSafeRun with cdp := { cdpAllOk with openOk := false } }

/-- Like `envSafeRun`, but the re-open in `check_file_content` fails. -/
def envReadFail : Env :=
  { envSafeRun with reopenOk := false }

end Ditty

namespace Ditty

theorem lor_4095_eq (n : Nat) : n ||| 4095 = 4096 * (n / 4096) + 4095 := by
  apply Nat.eq_of_testBit_eq
  intro i
  have h1 : (4095 : Nat) = 2 ^ 12 - 1 := by norm_num
  have h2 : (4096 : Nat) = 2 ^ 12 := by norm_num
  rw [Nat.testBit_lor]
  rcases Nat.lt_or_ge i 12 with hi | hi
  · have hb : Nat.testBit 4095 i = true := by
      rw [h1, Nat.testBit_two_pow_sub_one]
      simpa using hi
    rw [hb, Bool.or_true]
    have hmod : (4096 * (n / 4096) + 4095) % 2 ^ 12 = 4095 := by
      rw [h2] at *
      omega
    have := Nat.testBit_mod_two_pow (4096 * (n / 4096) + 4095) 12 i
    rw [hmod, h1, Nat.testBit_two_pow_sub_one] at this
    simp only [hi, decide_True, Bool.true_and] at this
    simpa using this.symm
  · have hb : Nat.testBit 4095 i = false := by
      rw [h1, Nat.testBit_two_pow_sub_one]
      simp
      omega
    rw [hb, Bool.or_false]
    rw [Nat.testBit_to_div_mod, Nat.testBit_to_div_mod]
    have hsplit : 2 ^ i = 4096 * 2 ^ (i - 12) := by
      rw [h2, ← Nat.pow_add]
      congr 1
      omega
    rw [hsplit, ← Nat.div_div_eq_div_mul, ← Nat.div_div_eq_div_mul]
    have hdiv : (4096 * (n / 4096) + 4095) / 4096 = n / 4096 := by omega
    rw [hdiv]

theorem next_page_eq (offset : Nat) (h : offset % PAGE_SIZE ≠ 0) :
    (offset ||| (PAGE_SIZE - 1)) + 1 = nextPageBoundary offset := by
  have l1 := lor_4095_eq offset
  norm_num [PAGE_SIZE, nextPageBoundary] at *
  omega

theorem chunkSizes_sum (r : Nat) : (chunkSizes r).sum = r := by
  induction r using Nat.strong_induction_on with
  | _ r ih =>
    match r with
    | 0 => simp [chunkSizes]
    | r + 1 =>
      rw [chunkSizes]
      have hlt : r + 1 - min (r + 1) 4096 < r + 1 := by omega
      rw [List.sum_cons, ih _ hlt]
      omega

theorem chunkSizes_bounded (r : Nat) :
    ((chunkSizes r).all fun n => decide (0 < n ∧ n ≤ 4096)) = true := by
  induction r using Nat.strong_induction_on with
  | _ r ih =>
    match r with
    | 0 => simp [chunkSizes]
    | r + 1 =>
      rw [chunkSizes]
      have hlt : r + 1 - min (r + 1) 4096 < r + 1 := by omega
      rw [List.all_cons, ih _ hlt]
      simp only [Bool.and_true, decide_eq_true_eq]
      omega

theorem fillLoop_eq (r : Nat) : ∀ level, fillLoop r level = level + r := by
  induction r using Nat.strong_induction_on with
  | _ r ih =>
    intro level
    match r with
    | 0 => simp [fillLoop]
    | r + 1 =>
      rw [fillLoop]
      have hlt : r + 1 - min (r + 1) 4096 < r + 1 := by omega
      rw [ih _ hlt]
      omega

theorem drainLoop_eq (r : Nat) : ∀ level, r ≤ level → drainLoop r level = level - r := by
  induction r using Nat.strong_induction_on with
  | _ r ih =>
    intro level hle
    match r with
    | 0 => simp [drainLoop]
    | r + 1 =>
      rw [drainLoop]
      have hlt : r + 1 - min (r + 1) 4096 < r + 1 := by omega
      rw [ih _ hlt]
      · omega
      · omega

theorem create_int_nonneg (env : Env) (st : SysState) :
    ¬ ((create_test_file env st).1 < 0) := by
  unfold create_test_file
  split_ifs <;> norm_num

end Ditty

namespace Ditty

/-- C4: first-failure-wins validation: a page-aligned offset is rejected as
`pageBoundaryOffset` regardless of payload and state, and otherwise a write
reaching past the next page boundary is rejected as `crossesPageBoundary`. -/
theorem C4_validation_order (env : CdpEnv) (st : SysState) (offset : Nat)
    (data : List Char) :
    (offset % PAGE_SIZE = 0 →
      (check_dirty_pipe env st offset data).1 =
        Except.error WriteError.pageBoundaryOffset) ∧
    (offset % PAGE_SIZE ≠ 0 → offset + data.length > nextPageBoundary offset →
      (check_dirty_pipe env st offset data).1 =
        Except.error WriteError.crossesPageBoundary) := by
  constructor
  · intro h
    simp [check_dirty_pipe, h]
  · intro h1 h2
    rw [← next_page_eq offset h1] at h2
    simp [check_dirty_pipe, h1, h2]

/-- C4 witness: both validation branches fire at concrete inputs. -/
theorem C4_validation_order_w :
    ((4096 % PAGE_SIZE = 0) ∧
      (check_dirty_pipe cdpAllOk stTest 4096 probe_data).1 =
        Except.error WriteError.pageBoundaryOffset) ∧
    ((4095 % PAGE_SIZE ≠ 0) ∧ 4095 + ([ 'a', 'b' ] : List Char).length > nextPageBoundary 4095 ∧
      (check_dirty_pipe cdpAllOk stTest 4095 [ 'a', 'b' ]).1 =
        Except.error WriteError.crossesPageBoundary) :=
  ⟨⟨by decide, (C4_validation_order cdpAllOk stTest 4096 probe_data).1 (by decide)⟩,
   ⟨by decide, by decide,
    (C4_validation_order cdpAllOk stTest 4095 [ 'a', 'b' ]).2 (by decide) (by decide)⟩⟩

/-- C3 counterexample: on the 13-byte artifact, `offset = size = 13` with a
1-byte payload is rejected as `wouldGrowFile`, not `offsetOutOfRange`. -/
theorem C3_counterexample :
    test_string.data.length = 13 ∧ (13 % PAGE_SIZE ≠ 0) ∧
    (check_dirty_pipe cdpAllOk stTest 13 [ 'a' ]).1 =
      Except.error WriteError.wouldGrowFile ∧
    WriteError.wouldGrowFile ≠ WriteError.offsetOutOfRange :=
  ⟨by decide, by decide, rfl, by decide⟩

/-- C3 amended: writing at `offset = size` (page validations passing, open
and stat succeeding, payload non-empty) returns `wouldGrowFile`: the offset
check is strict (`offset > size`), so end-of-file offsets fall through to
the growth check. -/
theorem C3_end_of_file_rejected (env : CdpEnv) (st : SysState) (c : List Char)
    (offset : Nat) (data : List Char)
    (hart : st.artifact = some c) (hsz : offset = c.length)
    (h1 : offset % PAGE_SIZE ≠ 0) (h2 : data ≠ [])
    (h3 : offset + data.length ≤ nextPageBoundary offset)
    (ho : env.openOk = true) (hs : env.statOk = true) :
    (check_dirty_pipe env st offset data).1 =
      Except.error WriteError.wouldGrowFile := by
  have hcross : ¬ (offset + data.length > (offset ||| (PAGE_SIZE - 1)) + 1) := by
    rw [next_page_eq offset h1]
    omega
  have hlen : 0 < data.length := List.length_pos.mpr h2
  have hoff : ¬ (offset > c.length) := by omega
  have hgrow : offset + data.length > c.length := by omega
  simp [check_dirty_pipe, h1, hcross, hart, ho, hs, hoff, hgrow]

/-- C3 witness: the amended statement at the concrete boundary input. -/
theorem C3_end_of_file_rejected_w :
    stTest.artifact = some test_string.data ∧
    (13 : Nat) = test_string.data.length ∧
    (13 % PAGE_SIZE ≠ 0) ∧ ([ 'a' ] : List Char) ≠ [] ∧
    13 + ([ 'a' ] : List Char).length ≤ nextPageBoundary 13 ∧
    (check_dirty_pipe cdpAllOk stTest 13 [ 'a' ]).1 =
      Except.error WriteError.wouldGrowFile :=
  ⟨rfl, by decide, by decide, by decide, by decide,
   C3_end_of_file_rejected cdpAllOk stTest test_string.data 13 [ 'a' ]
     rfl (by decide) (by decide) (by decide) (by decide) rfl rfl⟩

/-- C5 counterexample: `offset = 4096 > size = 13` is rejected as
`pageBoundaryOffset` (the page check runs first), not `offsetOutOfRange`. -/
theorem C5_counterexample :
    test_string.data.length = 13 ∧ (4096 : Nat) > 13 ∧
    (check_dirty_pipe cdpAllOk stTest 4096 [ 'a' ]).1 =
      Except.error WriteError.pageBoundaryOffset ∧
    WriteError.pageBoundaryOffset ≠ WriteError.offsetOutOfRange :=
  ⟨by decide, by decide, rfl, by decide⟩

/-- C5 amended: provided the page validations pass and open and stat
succeed, `offset > size` yields `offsetOutOfRange`, `offset ≤ size` with
`offset + len > size` yields `wouldGrowFile`, and in both cases the file
bytes are unchanged. -/
theorem C5_size_validation (env : CdpEnv) (st : SysState) (c : List Char)
    (offset : Nat) (data : List Char)
    (hart : st.artifact = some c) (h1 : offset % PAGE_SIZE ≠ 0)
    (h3 : offset + data.length ≤ nextPageBoundary offset)
    (ho : env.openOk = true) (hs : env.statOk = true)
    (hover : c.length < offset + data.length) :
    ((check_dirty_pipe env st offset data).2).artifact = st.artifact ∧
    (c.length < offset →
      (check_dirty_pipe env st offset data).1 =
        Except.error WriteError.offsetOutOfRange) ∧
    (offset ≤ c.length →
      (check_dirty_pipe env st offset data).1 =
        Except.error WriteError.wouldGrowFile) := by
  have hcross : ¬ (offset + data.length > (offset ||| (PAGE_SIZE - 1)) + 1) := by
    rw [next_page_eq offset h1]
    omega
  by_cases hc : offset > c.length
  · refine ⟨?_, fun _ => ?_, fun hle => by omega⟩ <;>
      simp [check_dirty_pipe, h1, hcross, hart, ho, hs, hc]
  · have hgrow : offset + data.length > c.length := hover
    refine ⟨?_, fun hlt => by omega, fun _ => ?_⟩ <;>
      simp [check_dirty_pipe, h1, hcross, hart, ho, hs, hc, hgrow]

/-- C5 witness: the amended statement at concrete inputs (offset 20 is out
of range for the 13-byte artifact without being page-aligned). -/
theorem C5_size_validation_w :
    stTest.artifact = some test_string.data ∧
    (20 % PAGE_SIZE ≠ 0) ∧
    20 + ([ 'a' ] : List Char).length ≤ nextPageBoundary 20 ∧
    test_string.data.length < 20 + ([ 'a' ] : List Char).length ∧
    ((check_dirty_pipe cdpAllOk stTest 20 [ 'a' ]).2).artifact = stTest.artifact ∧
    (check_dirty_pipe cdpAllOk stTest 20 [ 'a' ]).1 =
      Except.error WriteError.offsetOutOfRange :=
  ⟨rfl, by decide, by decide, by decide,
   (C5_size_validation cdpAllOk stTest test_string.data 20 [ 'a' ]
     rfl (by decide) (by decide) rfl rfl (by decide)).1,
   (C5_size_validation cdpAllOk stTest test_string.data 20 [ 'a' ]
     rfl (by decide) (by decide) rfl rfl (by decide)).2.1 (by decide)⟩

/-- C6 counterexample: on a fully successful call all three descriptors
obtained by `check_dirty_pipe` (the file handle and both pipe ends) are
still open when it returns. -/
theorem C6_counterexample :
    (check_dirty_pipe cdpAllOk stTest 6 probe_data).1 = Except.ok () ∧
    ((check_dirty_pipe cdpAllOk stTest 6 probe_data).2).openFds = 3 ∧
    ((check_dirty_pipe cdpAllOk stTest 6 probe_data).2).openFds ≠ stTest.openFds :=
  ⟨rfl, rfl, by decide⟩

/-- C6 amended: `check_dirty_pipe` never closes a descriptor: the open count
never decreases, and on the success path exactly the three acquired
descriptors remain open at return. -/
theorem C6_descriptors_not_released (env : CdpEnv) (st : SysState)
    (offset : Nat) (data : List Char) :
    st.openFds ≤ ((check_dirty_pipe env st offset data).2).openFds ∧
    ((check_dirty_pipe env st offset data).1 = Except.ok () →
      ((check_dirty_pipe env st offset data).2).openFds = st.openFds + 3) := by
  by_cases h1 : offset % PAGE_SIZE = 0
  case pos => simp [check_dirty_pipe, h1]
  by_cases h2 : offset + data.length > (offset ||| (PAGE_SIZE - 1)) + 1
  case pos => simp [check_dirty_pipe, h1, h2]
  rcases hart : st.artifact with _ | content
  · simp [check_dirty_pipe, h1, h2, hart]
  by_cases ho : env.openOk
  case neg => simp [check_dirty_pipe, h1, h2, hart, ho]
  by_cases hs : env.statOk
  case neg => simp [check_dirty_pipe, h1, h2, hart, ho, hs]
  by_cases hoff : offset > content.length
  case pos => simp [check_dirty_pipe, h1, h2, hart, ho, hs, hoff]
  by_cases hgrow : offset + data.length > content.length
  case pos => simp [check_dirty_pipe, h1, h2, hart, ho, hs, hoff, hgrow]
  by_cases hsp : env.spliceRes < 0
  case pos => simp [check_dirty_pipe, h1, h2, hart, ho, hs, hoff, hgrow, hsp]; omega
  by_cases hsz : env.spliceRes = 0
  case pos => simp [check_dirty_pipe, h1, h2, hart, ho, hs, hoff, hgrow, hsp, hsz]; omega
  by_cases hw : env.writeRes < 0
  case pos => simp [check_dirty_pipe, h1, h2, hart, ho, hs, hoff, hgrow, hsp, hsz, hw]; omega
  by_cases hv : env.vulnerable <;>
    by_cases hsw : env.writeRes.toNat < data.length <;>
    simp [check_dirty_pipe, h1, h2, hart, ho, hs, hoff, hgrow, hsp, hsz, hw, hv, hsw] <;>
    omega

/-- C6 witness: the amended statement on the all-success run. -/
theorem C6_descriptors_not_released_w :
    (check_dirty_pipe cdpAllOk stTest 6 probe_data).1 = Except.ok () ∧
    ((check_dirty_pipe cdpAllOk stTest 6 probe_data).2).openFds = stTest.openFds + 3 :=
  ⟨rfl, (C6_descriptors_not_released cdpAllOk stTest 6 probe_data).2 rfl⟩

/-- C7 counterexample: when the re-open in `check_file_content` fails, the
process returns with status 1 and the artifact still exists. -/
theorem C7_counterexample :
    (main_run envReadFail []).exitCode = 1 ∧
    ((main_run envReadFail []).final).artifact = some test_string.data ∧
    ((main_run envReadFail []).final).artifact ≠ none :=
  ⟨rfl, rfl, by decide⟩

/-- C7 amended: the artifact is unlinked exactly on the runs that exit with
status 0 (a Safe or Vulnerable verdict); the read-failure path returns
without removing it. -/
theorem C7_removed_only_on_success (env : Env) (argv : List String)
    (h : (main_run env argv).exitCode = 0) :
    ((main_run env argv).final).artifact = none := by
  simp only [main_run] at h ⊢
  split_ifs at h ⊢ <;> simp_all

/-- C7 witness: the amended statement on the all-success run. -/
theorem C7_removed_only_on_success_w :
    (main_run envSafeRun []).exitCode = 0 ∧
    ((main_run envSafeRun []).final).artifact = none :=
  ⟨rfl, C7_removed_only_on_success envSafeRun [] rfl⟩

/-- C9: any request that makes it past all six validations has `offset ≥ 1`
(offset 0 is page-aligned and rejected), so the `--offset` before the splice
never yields a negative file position. -/
theorem C9_offset_positive (env : CdpEnv) (st : SysState) (offset : Nat)
    (data : List Char)
    (h : passedValidation (check_dirty_pipe env st offset data).1 = true) :
    1 ≤ offset := by
  by_contra hlt
  have h0 : offset = 0 := by omega
  subst h0
  simp [check_dirty_pipe, passedValidation] at h

/-- C9 witness: the all-success run passes validation and its offset 6 is
at least 1. -/
theorem C9_offset_positive_w :
    passedValidation (check_dirty_pipe cdpAllOk stTest 6 probe_data).1 = true ∧
    1 ≤ 6 :=
  ⟨rfl, C9_offset_positive cdpAllOk stTest 6 probe_data rfl⟩

/-- C8: `prepare_pipe` writes exactly `capacity` bytes in chunks of at most
4096 bytes, reads back exactly the same chunk sequence, and leaves the pipe
level at zero. -/
theorem C8_prepare_exact (capacity : Nat) :
    ((prepare_pipe capacity).writeChunks).sum = capacity ∧
    (((prepare_pipe capacity).writeChunks).all fun n => decide (0 < n ∧ n ≤ 4096)) = true ∧
    (prepare_pipe capacity).readChunks = (prepare_pipe capacity).writeChunks ∧
    ((prepare_pipe capacity).readChunks).sum = capacity ∧
    (prepare_pipe capacity).finalLevel = 0 := by
  refine ⟨chunkSizes_sum capacity, chunkSizes_bounded capacity, rfl,
    chunkSizes_sum capacity, ?_⟩
  simp only [prepare_pipe]
  rw [fillLoop_eq, drainLoop_eq] <;> omega

/-- C10: `main` ignores its command line entirely and always probes the
fixed path, offset and payload. -/
theorem C10_argv_independent :
    (∀ (env : Env) (a1 a2 : List String), main_run env a1 = main_run env a2) ∧
    test_file = "/tmp/testfile.txt" ∧ probe_offset = 6 ∧
    probe_data = "mammy".data ∧ test_string = "Hello World!\n" :=
  ⟨fun _ _ _ => rfl, rfl, rfl, rfl, rfl⟩

/-- C2: write-sequence failures are swallowed: with the probe's read-only
open failing, `check_dirty_pipe` returns an error, yet the process prints
the Safe verdict and exits 0, because `main` compares the 0/1 return value
with `< 0`. -/
theorem C2_error_suppressed :
    (check_dirty_pipe envProbeFail.cdp
        (create_test_file envProbeFail (initSt envProbeFail)).2
        probe_offset probe_data).1 = Except.error WriteError.openFailed ∧
    (main_run envProbeFail []).exitCode = 0 ∧
    (main_run envProbeFail []).stdoutLine = some "You are safe" :=
  ⟨rfl, rfl, rfl⟩

/-- C1 counterexample: with a pre-existing 14-byte file at the target path,
the write sequence completes, the re-read content is byte-for-byte what the
harness created, and yet the verdict is Vulnerable, not Safe. -/
theorem C1_counterexample :
    (check_dirty_pipe envExtraByte.cdp
        (create_test_file envExtraByte (initSt envExtraByte)).2
        probe_offset probe_data).1 = Except.ok () ∧
    ((check_dirty_pipe envExtraByte.cdp
        (create_test_file envExtraByte (initSt envExtraByte)).2
        probe_offset probe_data).2).artifact =
      ((create_test_file envExtraByte (initSt envExtraByte)).2).artifact ∧
    verdictOf (main_run envExtraByte []) = ProbeVerdict.Vulnerable ∧
    ProbeVerdict.Vulnerable ≠ ProbeVerdict.Safe :=
  ⟨rfl, rfl, rfl, by decide⟩

/-- C1 amended: after a completed write sequence the verdict is Safe iff
the re-open and the read both succeed and the content reads back as exactly
the 13-byte test string; Vulnerable iff the re-open succeeds but either the
read fails or the content is anything else (whether or not it matches the
injected payload); and Error iff the re-open fails. -/
theorem C1_classification (env : Env) (argv : List String) (c : List Char)
    (hok : (check_dirty_pipe env.cdp (create_test_file env (initSt env)).2
        probe_offset probe_data).1 = Except.ok ())
    (hc : ((check_dirty_pipe env.cdp (create_test_file env (initSt env)).2
        probe_offset probe_data).2).artifact = some c) :
    (verdictOf (main_run env argv) = ProbeVerdict.Safe ↔
      env.reopenOk = true ∧ env.readOk = true ∧
        min c.length 255 = test_string.length ∧
        c.take test_string.length = test_string.data) ∧
    (verdictOf (main_run env argv) = ProbeVerdict.Vulnerable ↔
      env.reopenOk = true ∧
        ¬ (env.readOk = true ∧ min c.length 255 = test_string.length ∧
            c.take test_string.length = test_string.data)) ∧
    (verdictOf (main_run env argv) = ProbeVerdict.Error ↔ env.reopenOk = false) := by
  have hstr : ("VULNERABLE!" : String) ≠ "You are safe" := by decide
  have hneg : ((-1 : Int)) ≠ (test_string.length : Int) := by decide
  simp only [main_run]
  rw [if_neg (create_int_nonneg env (initSt env))]
  rw [hok]
  simp only [check_file_content]
  rw [hc]
  cases hre : env.reopenOk with
  | false => simp [verdictOf]
  | true =>
    cases hrd : env.readOk with
    | false => simp [hneg, verdictOf, hstr]
    | true =>
      by_cases hcond : min c.length 255 = test_string.length ∧
          c.take test_string.length = test_string.data
      · simp [hcond, verdictOf]
      · have hcondI : ¬ ((c.length : Int) ⊓ 255 = (test_string.length : Int) ∧
            c.take test_string.length = test_string.data) := by
          intro hx
          exact hcond ⟨by exact_mod_cast hx.1, hx.2⟩
        simp [hcond, hcondI, verdictOf, hstr]

/-- C1 witness: the amended classification on the all-success run, plus the
read-failure run, on which the verdict is Vulnerable (not Error). -/
theorem C1_classification_w :
    (check_dirty_pipe envSafeRun.cdp
        (create_test_file envSafeRun (initSt envSafeRun)).2
        probe_offset probe_data).1 = Except.ok () ∧
    ((check_dirty_pipe envSafeRun.cdp
        (create_test_file envSafeRun (initSt envSafeRun)).2
        probe_offset probe_data).2).artifact = some test_string.data ∧
    (verdictOf (main_run envSafeRun []) = ProbeVerdict.Safe ↔
      envSafeRun.reopenOk = true ∧ envSafeRun.readOk = true ∧
        min test_string.data.length 255 = test_string.length ∧
        test_string.data.take test_string.length = test_string.data) ∧
    verdictOf (main_run envReadErr []) = ProbeVerdict.Vulnerable :=
  ⟨rfl, rfl, (C1_classification envSafeRun [] test_string.data rfl rfl).1,
   (C1_classification envReadErr [] test_string.data rfl rfl).2.1.mpr
     ⟨rfl, by decide⟩⟩

end Ditty
